import Mathlib

/-!
Shallow embedding of the move-quality / navigation core of the
ai_speaking_chess_coach repository (src/game_analyzer.py, src/coach_session.py,
src/speech_ru.py).  Engine scores, per-ply classification, branch scanning,
navigation and variation application are translated as executable functions;
the chess rules themselves (python-chess) are abstracted as parameters.
-/

/- ===== ScoreNormalizer: python-chess score objects =====
A `PovScore` carries a relative score (`rel`) expressed from the point of
view of `turn` (the side to move at the analysed position).  `pov c`
re-anchors it to colour `c` (True = White), negating when the colours differ,
exactly as python-chess does.  `malformed` models a score object from which
neither a centipawn value nor a mate distance can be read. -/

inductive RelScore where
  | cp (v : Int)
  | mate (n : Int)
  | malformed
deriving DecidableEq, Repr

def RelScore.negate : RelScore → RelScore
  | .cp v => .cp (-v)
  | .mate n => .mate (-n)
  | .malformed => .malformed

structure PovScore where
  rel : RelScore
  turn : Bool
deriving DecidableEq, Repr

def PovScore.pov (s : PovScore) (c : Bool) : RelScore :=
  if c = s.turn then s.rel else s.rel.negate

def BIG_MATE_CP : Int := 100000

/-- game_analyzer.extract_cp: None yields 0; a mate in `n` goes through
`Score.score(mate_score=BIG_MATE_CP)`, i.e. `BIG_MATE_CP - n` for `n > 0`
and `-BIG_MATE_CP - n` otherwise; a plain centipawn value is returned as
is; anything unreadable yields 0. -/
def extract_cp (score : Option PovScore) (c : Bool) : Int :=
  match score with
  | none => 0
  | some s =>
    match s.pov c with
    | .cp v => v
    | .mate n => if 0 < n then BIG_MATE_CP - n else -BIG_MATE_CP - n
    | .malformed => 0

/-- coach_session.CoachSession._score_to_cp: pov to the board's side to move;
a nonzero mate distance yields exactly plus or minus 100000; a zero mate
distance falls through every branch (Score.score() is None and the PovScore
object has no cp/mate attributes) and returns 0; a centipawn value is
returned as is; None or unreadable yields 0. -/
def score_to_cp (turn : Bool) (score : Option PovScore) : Int :=
  match score with
  | none => 0
  | some s =>
    match s.pov turn with
    | .mate n => if n ≠ 0 then (if 0 < n then 100000 else -100000) else 0
    | .cp v => v
    | .malformed => 0

/- ===== Thresholds (game_analyzer.py / coach_session.py) ===== -/

def THRESH_INACCURACY : Int := 50
def THRESH_MISTAKE : Int := 150
def THRESH_BLUNDER : Int := 300
def ALT_TOL_CP : Int := 25
def UNIQUE_GAP_CP : Int := 60
def BAD_SHOW : Nat := 2
def OPENING_SKIP_FULLMOVES : Nat := 5
def DECISIVE_HIDE_CP : Int := 1000
def EVAL_HIDE_CP : Int := 30
def BAD_DROP_CP_FOR_VARIATION : Int := 50

/-- game_analyzer.annotate_by_cpl: the mark is chosen by the absolute value
of the centipawn loss. -/
def annotate_by_cpl (cpl : Int) : String :=
  if THRESH_BLUNDER ≤ |cpl| then "??"
  else if THRESH_MISTAKE ≤ |cpl| then "?"
  else if THRESH_INACCURACY ≤ |cpl| then "?!"
  else ""

/-- Claim C4: score normalization is total (both normalizers are plain
functions into Int), a missing or malformed score yields 0 in both
`extract_cp` and `_score_to_cp`, and a forced-mate score of nonzero distance
at most 90000 yields an absolute value of at least 10000 (exactly 100000 in
`_score_to_cp`). -/
theorem claim_C4_score_normalizer (povTurn c turn : Bool) (n : Int) :
    extract_cp none c = 0 ∧
    score_to_cp turn none = 0 ∧
    extract_cp (some ⟨RelScore.malformed, povTurn⟩) c = 0 ∧
    score_to_cp turn (some ⟨RelScore.malformed, povTurn⟩) = 0 ∧
    (n ≠ 0 → n.natAbs ≤ 90000 →
      10000 ≤ (extract_cp (some ⟨RelScore.mate n, povTurn⟩) c).natAbs ∧
      (score_to_cp turn (some ⟨RelScore.mate n, povTurn⟩)).natAbs = 100000) := by
  refine ⟨rfl, rfl, ?_, ?_, ?_⟩
  · by_cases h : c = povTurn <;>
      simp [extract_cp, PovScore.pov, h, RelScore.negate]
  · by_cases h : turn = povTurn <;>
      simp [score_to_cp, PovScore.pov, h, RelScore.negate]
  · intro hn hb
    constructor
    · by_cases h : c = povTurn <;>
        simp only [extract_cp, PovScore.pov, h, if_true, if_false,
          RelScore.negate, BIG_MATE_CP] <;>
        split <;> omega
    · by_cases h : turn = povTurn <;>
        simp only [score_to_cp, PovScore.pov, h, if_true, if_false,
          RelScore.negate] <;>
        split <;> (try split) <;> omega

/-- Witness for C4 at the concrete score mate-in-3 from White's side,
queried from Black's perspective. -/
theorem claim_C4_witness :
    (3 : Int) ≠ 0 ∧ (3 : Int).natAbs ≤ 90000 ∧
    (10000 ≤ (extract_cp (some ⟨RelScore.mate 3, true⟩) false).natAbs ∧
      (score_to_cp false (some ⟨RelScore.mate 3, true⟩)).natAbs = 100000) :=
  ⟨by decide, by decide,
    (claim_C4_score_normalizer true false false 3).2.2.2.2 (by decide) (by decide)⟩

/- ===== game_analyzer.analyze_game: per-ply classification =====
One engine line (InfoDict) of the pre-move MultiPV analysis: its score and
its principal variation (moves as abstract identifiers).  The post-move
analysis is MultiPV 1 and only its score matters. -/

structure AnItem where
  score : Option PovScore
  pv : List Nat
deriving DecidableEq, Repr

/-- White-POV centipawns of every pre-move line (the `lines` list built for
the markdown/JSONL output). -/
def an_lines_cp (items : List AnItem) : List Int :=
  items.map (fun it => extract_cp it.score true)

/-- One-based index of the MultiPV line whose principal variation starts
with the played move (`played_idx`). -/
def an_played_idx (items : List AnItem) (move : Nat) : Option Nat :=
  (items.findIdx? (fun it => it.pv.head? == some move)).map (· + 1)

/-- The equal-alternative collection loop: one-based line indices other than
the played line whose White-POV score is within ALT_TOL_CP of the best
line's, stopping once two are collected. -/
def collect_alts (bestLocal : Int) (playedIdx : Nat) (linesCp : List Int) : List Nat :=
  ((((linesCp.enumFrom 1).filter
      (fun p => decide (p.1 ≠ playedIdx) && decide (|bestLocal - p.2| ≤ ALT_TOL_CP))).map
      Prod.fst).take 2)

/-- `alt_idxs` selection of analyze_game: inside the opening grace or a
pre-move decisive position nothing is selected; when the played move is one
of the MultiPV lines, equal alternatives to the best are proposed unless the
best move is "unique" (played is line 1 and the gap to line 2 is at least
UNIQUE_GAP_CP); otherwise the first BAD_SHOW lines not starting with the
played move. -/
def an_alt_idxs (fullmove : Nat) (decisivePre : Bool) (items : List AnItem)
    (move : Nat) : List Nat :=
  if OPENING_SKIP_FULLMOVES < fullmove ∧ decisivePre = false then
    match an_played_idx items move with
    | some p =>
      let linesCp := an_lines_cp items
      let gap := if 2 ≤ linesCp.length then linesCp.getD 0 0 - linesCp.getD 1 0
        else UNIQUE_GAP_CP + 1
      if p = 1 ∧ UNIQUE_GAP_CP ≤ gap then []
      else collect_alts (linesCp.getD 0 0) p linesCp
    | none =>
      ((List.range (min BAD_SHOW items.length)).map (· + 1)).filter
        (fun i => match (items.get? (i - 1)).bind (fun it => it.pv.head?) with
          | some m => m != move
          | none => true)
  else []

/-- Everything analyze_game derives for one ply: the JSONL record fields
(best/post scores, cpl, mark), the side-variation bookkeeping, the NAG, the
markdown mark and the key-moment entry. -/
structure AnPlyResult where
  bestCpStm : Int
  bestCpWhite : Int
  postCpMover : Int
  postCpWhite : Int
  cpl : Int
  mark : String
  playedIdx : Option Nat
  altIdxs : List Nat
  inserted : List Nat
  nagAdded : Bool
  mdMark : String
  keyRec : Bool
  evalShown : Bool
  placeEval : String
deriving DecidableEq, Repr

/-- Best pre-move score rotated to colour `c`, 0 when there is no line
(`extract_cp(info_get_score(items[0]), c) if items else 0`). -/
def an_best_cp (c : Bool) (items : List AnItem) : Int :=
  match items.head? with
  | some it => extract_cp it.score c
  | none => 0

/-- `decisive_now` computed before the move: the best White-POV score is
already at or beyond the decisive cutoff. -/
def an_decisive_pre (items : List AnItem) : Bool :=
  decide (DECISIVE_HIDE_CP ≤ |an_best_cp true items|)

/-- `decisive_now` after folding in the post-move score. -/
def an_decisive_now (items : List AnItem) (postScore : Option PovScore) : Bool :=
  an_decisive_pre items || decide (DECISIVE_HIDE_CP ≤ |extract_cp postScore true|)

/-- The body of analyze_game's per-ply loop.  `turn` is the side to move
before the move (the mover: after `board.push(move)` the code recomputes the
mover as the opposite of the new side to move, which is `turn` again);
`postScore` is the score of the single post-move line. -/
def analyze_ply (fullmove : Nat) (turn : Bool) (items : List AnItem)
    (move : Nat) (postScore : Option PovScore) : AnPlyResult :=
  let bestCpStm := an_best_cp turn items
  let bestCpWhite := an_best_cp true items
  let playedIdx := an_played_idx items move
  let altIdxs := an_alt_idxs fullmove (an_decisive_pre items) items move
  let postCpMover := extract_cp postScore turn
  let postCpWhite := extract_cp postScore true
  let decisiveNow := an_decisive_now items postScore
  let cpl := bestCpStm - postCpMover
  let mark := annotate_by_cpl cpl
  let placeEval := if BAD_DROP_CP_FOR_VARIATION ≤ cpl then "head" else "tail"
  let inserted :=
    if OPENING_SKIP_FULLMOVES < fullmove ∧ decisiveNow = false then
      altIdxs.filter (fun i => match (items.get? (i - 1)).map (fun it => it.pv.head?) with
        | some (some m) => m != move
        | _ => false)
    else []
  let nagAdded := !decisiveNow && (mark != "")
  let mdMark := if decisiveNow then "" else mark
  let keyRec := !decisiveNow && (mark != "")
  let evalShown := decide (OPENING_SKIP_FULLMOVES < fullmove) && !decisiveNow &&
    !(decide (|bestCpWhite| ≤ EVAL_HIDE_CP ∧ |postCpWhite| ≤ EVAL_HIDE_CP))
  ⟨bestCpStm, bestCpWhite, postCpMover, postCpWhite, cpl, mark, playedIdx,
    altIdxs, inserted, nagAdded, mdMark, keyRec, evalShown, placeEval⟩

/- ===== coach_session.CoachSession.detect_mistake_on_next_main_move =====
One pre-move MultiPV line as the coach sees it: its score and the SAN of the
first move of its principal variation (`none` when the PV is empty; the SAN
string is "" when board.san raised). -/

structure CoachItem where
  score : Option PovScore
  pv0san : Option String
deriving DecidableEq, Repr

/-- The coach verdict dictionary: played move, engine best move, centipawn
loss and severity mark. -/
structure Verdict where
  played_san : String
  best_san : String
  cpl : Int
  mark : String
deriving DecidableEq, Repr

/-- `best_cp_stm`: score of the first MultiPV line rotated to the pre-move
side to move, 0 when there is no line or no score. -/
def coach_best_cp (turn : Bool) (items : List CoachItem) : Int :=
  match items.head? with
  | some it => match it.score with
    | some s => score_to_cp turn (some s)
    | none => 0
  | none => 0

/-- Zero-based index of the first MultiPV line whose PV starts with the
played SAN (lines with an empty PV are skipped). -/
def coach_match_idx (items : List CoachItem) (playedSan : String) : Option Nat :=
  items.findIdx? (fun it => it.pv0san == some playedSan)

/-- `cp_played_pre`: the matched line's score rotated to the pre-move side
to move, `none` when no line matches or the matched line has no score. -/
def coach_cp_played (turn : Bool) (items : List CoachItem) (playedSan : String) :
    Option Int :=
  (coach_match_idx items playedSan).bind fun j =>
    (items.get? j).bind fun it =>
      it.score.map fun s => score_to_cp turn (some s)

/-- The equal-strength test: `cp_played_pre is not None and
abs(best_cp_stm - cp_played_pre) <= ALT_TOL_CP`. -/
def coach_tol_ok (turn : Bool) (items : List CoachItem) (playedSan : String) : Bool :=
  match coach_cp_played turn items playedSan with
  | some c => decide (|coach_best_cp turn items - c| ≤ ALT_TOL_CP)
  | none => false

/-- SAN of the first move of the best line, "" when unavailable. -/
def coach_best_san (items : List CoachItem) : String :=
  match items.head? with
  | some it => it.pv0san.getD ""
  | none => ""

/-- detect_mistake_on_next_main_move.  The session state is read-only here:
`hasGame`, the cursor `plyIdx`, the mainline length, and the pre-move
board's fullmove number and side to move are all the method consumes besides
the engine results.  Note the post-move score is rotated to `!turn`: the
code sets `mover = (not pre_board.turn)` and then re-anchors the post board
to that colour, which is the side to move after the move, not the mover. -/
def detect_mistake (hasGame : Bool) (plyIdx mainLen fullmove : Nat) (turn : Bool)
    (items : List CoachItem) (playedSan : String) (postScore : Option PovScore) :
    Verdict :=
  if hasGame = false then ⟨"", "", 0, ""⟩
  else if mainLen ≤ plyIdx then ⟨"", "", 0, ""⟩
  else if fullmove ≤ 6 then ⟨playedSan, "", 0, ""⟩
  else
    let bestCp := coach_best_cp turn items
    let playedIsBest := coach_match_idx items playedSan == some 0
    if playedIsBest || coach_tol_ok turn items playedSan then
      ⟨playedSan, if playedIsBest then playedSan else coach_best_san items, 0, ""⟩
    else
      let postCp := score_to_cp (!turn) postScore
      let cpl := bestCp - postCp
      let mark :=
        if THRESH_BLUNDER ≤ |cpl| then "??"
        else if THRESH_MISTAKE ≤ |cpl| then "?"
        else if THRESH_INACCURACY ≤ |cpl| then "?!"
        else ""
      ⟨playedSan, coach_best_san items, cpl, mark⟩

/-- Claim C10: with no game loaded or with the cursor at or past the end of
the mainline, detect_mistake_on_next_main_move returns the empty verdict
(it reads the session state without writing any of it, and the embedding is
a total function, so nothing is raised). -/
theorem claim_C10_empty_verdict (hasGame : Bool) (plyIdx mainLen fullmove : Nat)
    (turn : Bool) (items : List CoachItem) (playedSan : String)
    (postScore : Option PovScore)
    (h : hasGame = false ∨ mainLen ≤ plyIdx) :
    detect_mistake hasGame plyIdx mainLen fullmove turn items playedSan postScore =
      ⟨"", "", 0, ""⟩ := by
  by_cases hg : hasGame = false
  · simp [detect_mistake, hg]
  · have h2 : mainLen ≤ plyIdx := by tauto
    simp [detect_mistake, hg, h2]

/-- Witness for C10: cursor at ply 7 of a 5-move mainline. -/
theorem claim_C10_witness :
    ((5 : Nat) ≤ 7) ∧
    detect_mistake true 7 5 10 true [] "e4" none = ⟨"", "", 0, ""⟩ :=
  ⟨by decide,
    claim_C10_empty_verdict true 7 5 10 true [] "e4" none (Or.inr (by decide))⟩

/-- Claim C1 (amended): only the session classifier skips the opening grace
entirely — for fullmove at most 6 it returns mark none and CPL 0 regardless
of engine output.  analyze_game's grace (fullmove at most
OPENING_SKIP_FULLMOVES = 5) suppresses only alternative selection, variation
insertion and evaluation display; CPL and mark are still computed. -/
theorem claim_C1_opening_grace (plyIdx mainLen fullmove : Nat) (turn : Bool)
    (items : List CoachItem) (playedSan : String) (post : Option PovScore)
    (h1 : plyIdx < mainLen) (h2 : fullmove ≤ 6)
    (fm2 : Nat) (turn2 : Bool) (items2 : List AnItem) (mv : Nat)
    (post2 : Option PovScore) (h3 : fm2 ≤ OPENING_SKIP_FULLMOVES) :
    detect_mistake true plyIdx mainLen fullmove turn items playedSan post =
      ⟨playedSan, "", 0, ""⟩ ∧
    (analyze_ply fm2 turn2 items2 mv post2).altIdxs = [] ∧
    (analyze_ply fm2 turn2 items2 mv post2).inserted = [] ∧
    (analyze_ply fm2 turn2 items2 mv post2).evalShown = false := by
  have hno : ¬ mainLen ≤ plyIdx := by omega
  have hlt : ¬ OPENING_SKIP_FULLMOVES < fm2 := Nat.not_lt.mpr h3
  refine ⟨?_, ?_, ?_, ?_⟩
  · simp [detect_mistake, hno, h2]
  · simp [analyze_ply, an_alt_idxs, hlt]
  · simp [analyze_ply, hlt]
  · simp [analyze_ply, hlt]

/-- Witness for C1 (amended) at ply 0 of a one-move game, fullmove 4. -/
theorem claim_C1_witness :
    ((0 : Nat) < 1) ∧ ((4 : Nat) ≤ 6) ∧ ((3 : Nat) ≤ OPENING_SKIP_FULLMOVES) ∧
    (detect_mistake true 0 1 4 true [] "Nf3" none = ⟨"Nf3", "", 0, ""⟩ ∧
      (analyze_ply 3 true [] 5 none).altIdxs = [] ∧
      (analyze_ply 3 true [] 5 none).inserted = [] ∧
      (analyze_ply 3 true [] 5 none).evalShown = false) :=
  ⟨by decide, by decide, by decide,
    claim_C1_opening_grace 0 1 4 true [] "Nf3" none (by decide) (by decide)
      3 true [] 5 none (by decide)⟩

/-- Counterexample to C1 as stated: at fullmove 3 (inside the opening
grace), analyze_game still reports CPL 400 and attaches the blunder mark
"??" (and its NAG) for this engine output, instead of mark none and CPL 0. -/
theorem claim_C1_counterexample :
    (analyze_ply 3 true [⟨some ⟨RelScore.cp 0, true⟩, [7]⟩] 5
        (some ⟨RelScore.cp 400, false⟩)).cpl = 400 ∧
    (analyze_ply 3 true [⟨some ⟨RelScore.cp 0, true⟩, [7]⟩] 5
        (some ⟨RelScore.cp 400, false⟩)).mark = "??" ∧
    (analyze_ply 3 true [⟨some ⟨RelScore.cp 0, true⟩, [7]⟩] 5
        (some ⟨RelScore.cp 400, false⟩)).nagAdded = true := by
  refine ⟨by decide, ?_, by decide⟩
  rfl

/-- Claim C5 (amended): past the session classifier's grace period, a played
move that is the top-ranked pre-move line, or whose pre-move score is within
ALT_TOL_CP of the best line's, is not a mistake there: CPL 0 and mark none.
In analyze_game the played-is-best check only steers alternative selection;
CPL stays bestCpBefore minus the post-move mover score even for the
top-ranked move. -/
theorem claim_C5_equal_strength (plyIdx mainLen fullmove : Nat) (turn : Bool)
    (items : List CoachItem) (playedSan : String) (post : Option PovScore)
    (h1 : plyIdx < mainLen) (h2 : 6 < fullmove)
    (h3 : coach_match_idx items playedSan = some 0 ∨
      coach_tol_ok turn items playedSan = true)
    (fm2 : Nat) (turn2 : Bool) (it0 : AnItem) (rest : List AnItem) (mv : Nat)
    (post2 : Option PovScore) :
    (detect_mistake true plyIdx mainLen fullmove turn items playedSan post).cpl
        = 0 ∧
    (detect_mistake true plyIdx mainLen fullmove turn items playedSan post).mark
        = "" ∧
    (analyze_ply fm2 turn2 (it0 :: rest) mv post2).cpl =
      extract_cp it0.score turn2 - extract_cp post2 turn2 := by
  have hno : ¬ mainLen ≤ plyIdx := by omega
  have hno6 : ¬ fullmove ≤ 6 := by omega
  refine ⟨?_, ?_, ?_⟩
  · simp [detect_mistake, hno, hno6]
    rw [if_pos h3]
  · simp [detect_mistake, hno, hno6]
    rw [if_pos h3]
  · simp [analyze_ply, an_best_cp]

/-- Witness for C5 at a concrete position where the played move is the
top-ranked line. -/
theorem claim_C5_witness :
    ((0 : Nat) < 1) ∧ ((6 : Nat) < 10) ∧
    coach_match_idx [⟨some ⟨RelScore.cp 30, true⟩, some "e4"⟩] "e4" = some 0 ∧
    ((detect_mistake true 0 1 10 true [⟨some ⟨RelScore.cp 30, true⟩, some "e4"⟩]
        "e4" none).cpl = 0 ∧
      (detect_mistake true 0 1 10 true [⟨some ⟨RelScore.cp 30, true⟩, some "e4"⟩]
        "e4" none).mark = "" ∧
      (analyze_ply 10 true (⟨some ⟨RelScore.cp 30, true⟩, [7]⟩ :: []) 7 none).cpl =
        extract_cp (some ⟨RelScore.cp 30, true⟩) true - extract_cp none true) :=
  ⟨by decide, by decide, by decide,
    claim_C5_equal_strength 0 1 10 true [⟨some ⟨RelScore.cp 30, true⟩, some "e4"⟩]
      "e4" none (by decide) (by decide) (Or.inl (by decide))
      10 true ⟨some ⟨RelScore.cp 30, true⟩, [7]⟩ [] 7 none⟩

/-- Counterexample to C5 as stated: in analyze_game the played move is the
top-ranked pre-move line (played_idx = 1), yet the recorded CPL is 200 and
the mark is "?", because no played-is-best early exit exists there. -/
theorem claim_C5_counterexample :
    an_played_idx [⟨some ⟨RelScore.cp 50, true⟩, [7]⟩] 7 = some 1 ∧
    (analyze_ply 10 true [⟨some ⟨RelScore.cp 50, true⟩, [7]⟩] 7
        (some ⟨RelScore.cp 150, false⟩)).cpl = 200 ∧
    (analyze_ply 10 true [⟨some ⟨RelScore.cp 50, true⟩, [7]⟩] 7
        (some ⟨RelScore.cp 150, false⟩)).mark = "?" := by
  refine ⟨by decide, by decide, ?_⟩
  rfl

/-- Claim C2 (amended): in analyze_game a move that loses X centipawns for
the mover (post-move mover score = best pre-move score minus X) yields
CPL = +X; but the severity mark is taken from the absolute value of the
CPL, so the mark is none exactly when the absolute CPL is below
THRESH_INACCURACY — a move with CPL at or below -50 also gets a mark. -/
theorem claim_C2_cpl_sign (fm : Nat) (turn : Bool) (it0 : AnItem)
    (rest : List AnItem) (mv : Nat) (post : Option PovScore) (X : Int)
    (h : extract_cp post turn = extract_cp it0.score turn - X) :
    (analyze_ply fm turn (it0 :: rest) mv post).cpl = X ∧
    ((analyze_ply fm turn (it0 :: rest) mv post).mark = "" ↔
      |X| < THRESH_INACCURACY) ∧
    (∀ c : Int, annotate_by_cpl (-c) = annotate_by_cpl c) := by
  have hcpl : (analyze_ply fm turn (it0 :: rest) mv post).cpl = X := by
    simp [analyze_ply, an_best_cp, h]
  refine ⟨hcpl, ?_, ?_⟩
  · have hmark : (analyze_ply fm turn (it0 :: rest) mv post).mark =
        annotate_by_cpl X := by
      have hx : an_best_cp turn (it0 :: rest) - extract_cp post turn = X := by
        simp [an_best_cp, h]
      simp [analyze_ply, hx]
    rw [hmark, annotate_by_cpl, THRESH_INACCURACY, THRESH_MISTAKE, THRESH_BLUNDER]
    split
    · simp; omega
    · split
      · simp; omega
      · split
        · simp; omega
        · simp; omega
  · intro c
    simp [annotate_by_cpl, abs_neg]

/-- Witness for C2 at a concrete ply losing exactly 200 centipawns. -/
theorem claim_C2_witness :
    extract_cp (some ⟨RelScore.cp 100, false⟩) true =
      extract_cp (some ⟨RelScore.cp 100, true⟩) true - 200 ∧
    ((analyze_ply 10 true (⟨some ⟨RelScore.cp 100, true⟩, [4]⟩ :: []) 9
        (some ⟨RelScore.cp 100, false⟩)).cpl = 200 ∧
      ((analyze_ply 10 true (⟨some ⟨RelScore.cp 100, true⟩, [4]⟩ :: []) 9
        (some ⟨RelScore.cp 100, false⟩)).mark = "" ↔
        |(200 : Int)| < THRESH_INACCURACY) ∧
      (∀ c : Int, annotate_by_cpl (-c) = annotate_by_cpl c)) :=
  ⟨by decide,
    claim_C2_cpl_sign 10 true ⟨some ⟨RelScore.cp 100, true⟩, [4]⟩ [] 9
      (some ⟨RelScore.cp 100, false⟩) 200 (by decide)⟩

/-- Counterexample to C2 as stated: a ply whose move gains 300 centipawns
(CPL = -300, no ground lost) still receives the blunder mark "??" because
the mark is computed from the absolute CPL. -/
theorem claim_C2_counterexample :
    (analyze_ply 10 true [⟨some ⟨RelScore.cp 0, true⟩, [7]⟩] 5
        (some ⟨RelScore.cp (-300), false⟩)).cpl = -300 ∧
    (analyze_ply 10 true [⟨some ⟨RelScore.cp 0, true⟩, [7]⟩] 5
        (some ⟨RelScore.cp (-300), false⟩)).mark = "??" := by
  refine ⟨by decide, ?_⟩
  rfl

/-- Claim C6: when the pre-move or post-move best score strictly exceeds the
decisive cutoff in absolute White-POV value,"analyze_game suppresses the
side variations, the NAG, the markdown mark and the key-moment record for
that ply. -/
theorem claim_C6_decisive_suppression (fm : Nat) (turn : Bool)
    (items : List AnItem) (mv : Nat) (post : Option PovScore)
    (h : DECISIVE_HIDE_CP < |an_best_cp true items| ∨
      DECISIVE_HIDE_CP < |extract_cp post true|) :
    (analyze_ply fm turn items mv post).inserted = [] ∧
    (analyze_ply fm turn items mv post).nagAdded = false ∧
    (analyze_ply fm turn items mv post).mdMark = "" ∧
    (analyze_ply fm turn items mv post).keyRec = false := by
  have hd : an_decisive_now items post = true := by
    simp only [an_decisive_now, an_decisive_pre, Bool.or_eq_true,
      decide_eq_true_eq]
    exact Or.imp le_of_lt le_of_lt h
  refine ⟨?_, ?_, ?_, ?_⟩ <;> simp [analyze_ply, hd]

/-- Witness for C6 at a ply whose pre-move best is +12.00 for White. -/
theorem claim_C6_witness :
    DECISIVE_HIDE_CP < |an_best_cp true [⟨some ⟨RelScore.cp 1200, true⟩, [7]⟩]| ∧
    ((analyze_ply 10 true [⟨some ⟨RelScore.cp 1200, true⟩, [7]⟩] 7 none).inserted
        = [] ∧
      (analyze_ply 10 true [⟨some ⟨RelScore.cp 1200, true⟩, [7]⟩] 7 none).nagAdded
        = false ∧
      (analyze_ply 10 true [⟨some ⟨RelScore.cp 1200, true⟩, [7]⟩] 7 none).mdMark
        = "" ∧
      (analyze_ply 10 true [⟨some ⟨RelScore.cp 1200, true⟩, [7]⟩] 7 none).keyRec
        = false) :=
  ⟨by decide,
    claim_C6_decisive_suppression 10 true [⟨some ⟨RelScore.cp 1200, true⟩, [7]⟩]
      7 none (Or.inl (by decide))⟩

/- ===== coach_session.CoachSession.autoplay_to_first_branch =====
The scan walks the mainline; for ply `i` it reads the board's fullmove
number before pushing the move (`fullmove_before`) and the number of
variations of the node's parent. -/

structure ScanPly where
  fullmoveBefore : Nat
  parentVarCount : Nat
deriving DecidableEq, Repr

def scan_is_branch (p : ScanPly) : Bool := decide (1 < p.parentVarCount)

def scan_in_range (lo hi : Nat) (p : ScanPly) : Bool :=
  decide (lo ≤ p.fullmoveBefore ∧ p.fullmoveBefore ≤ hi)

/-- The scan loop with its two accumulators: `chosen` keeps the first branch
ply whose fullmove number is in range, `fallback` keeps the first branch ply
of the game; after the loop `chosen_idx = fallback if chosen is None` and
ply 0 when neither exists. -/
def autoplay_go (lo hi : Nat) : List ScanPly → Nat → Option Nat → Option Nat → Nat
  | [], _, chosen, fallback => chosen.getD (fallback.getD 0)
  | p :: rest, i, chosen, fallback =>
    if scan_is_branch p = true then
      autoplay_go lo hi rest (i + 1)
        (if chosen = none ∧ scan_in_range lo hi p = true then some i else chosen)
        (if fallback = none then some i else fallback)
    else
      autoplay_go lo hi rest (i + 1) chosen fallback

/-- `autoplay_to_first_branch`: the chosen ply index of the scan. -/
def autoplay_scan (plies : List ScanPly) (lo hi : Nat) : Nat :=
  autoplay_go lo hi plies 0 none none

/-- Specification-side recursion: index (offset by `i`) of the first branch
ply whose fullmove number lies in the requested range. -/
def find_branch_in_range (lo hi : Nat) : List ScanPly → Nat → Option Nat
  | [], _ => none
  | p :: rest, i =>
    if scan_is_branch p = true ∧ scan_in_range lo hi p = true then some i
    else find_branch_in_range lo hi rest (i + 1)

/-- Specification-side recursion: index (offset by `i`) of the first branch
ply of the game. -/
def find_branch : List ScanPly → Nat → Option Nat
  | [], _ => none
  | p :: rest, i =>
    if scan_is_branch p = true then some i else find_branch rest (i + 1)

def opt_or (a b : Option Nat) : Option Nat :=
  match a with
  | some v => some v
  | none => b

theorem autoplay_go_spec (lo hi : Nat) (l : List ScanPly) :
    ∀ (i : Nat) (ch fb : Option Nat),
      autoplay_go lo hi l i ch fb =
        (opt_or ch (find_branch_in_range lo hi l i)).getD
          ((opt_or fb (find_branch l i)).getD 0) := by
  induction l with
  | nil =>
    intro i ch fb
    cases ch <;> cases fb <;> simp [autoplay_go, find_branch_in_range, find_branch, opt_or]
  | cons p rest ih =>
    intro i ch fb
    by_cases hb : scan_is_branch p = true
    · by_cases hr : scan_in_range lo hi p = true
      · cases ch <;> cases fb <;>
          simp [autoplay_go, hb, hr, find_branch_in_range, find_branch, opt_or, ih]
      · cases ch <;> cases fb <;>
          simp [autoplay_go, hb, hr, find_branch_in_range, find_branch, opt_or, ih]
    · simp [autoplay_go, hb, find_branch_in_range, find_branch, ih]

/-- The game of the specification's scenario: branch points only at
full-moves 2 (ply 2) and 9 (ply 16); ply `i` is played with fullmove number
`1 + i / 2`. -/
def c3_example_game : List ScanPly :=
  (List.range 20).map (fun i => ⟨1 + i / 2, if i = 2 ∨ i = 16 then 2 else 1⟩)

/-- Claim C3: the branch selection realizes the fallback chain — the first
branch ply whose fullmove number (at time of encounter) is within
[lo, hi], else the first branch ply of the whole game, else ply 0; and on a
game with branches only at full-moves 2 and 9 with requested range [4, 6]
it picks the ply-2 branch (fullmove 2), not ply 0 and not the move-9 one. -/
theorem claim_C3_first_branch :
    (∀ (plies : List ScanPly) (lo hi : Nat),
      autoplay_scan plies lo hi =
        (opt_or (find_branch_in_range lo hi plies 0) ((find_branch plies 0))).getD 0) ∧
    autoplay_scan c3_example_game 4 6 = 2 ∧
    (c3_example_game.get? 2).map ScanPly.fullmoveBefore = some 2 ∧
    find_branch_in_range 4 6 c3_example_game 0 = none := by
  refine ⟨?_, by decide, by decide, by decide⟩
  intro plies lo hi
  rw [autoplay_scan, autoplay_go_spec]
  cases hfr : find_branch_in_range lo hi plies 0 <;>
    cases hfb : find_branch plies 0 <;> simp [opt_or]

/- ===== speech_ru.apply_san_sequence / coach_session.what_if_san =====
The chess rules (python-chess parsing, legality, push) are abstracted as an
operations record; boards are values, and a Python method that never writes
through its board reference is modelled by returning the caller's board
unchanged next to its result. -/

structure SanOps (B M : Type) where
  parseSan : B → String → Option M
  uciShape : String → Bool
  parseUci : String → Option M
  legal : B → M → Bool
  push : B → M → B

/-- The token loop of apply_san_sequence: SAN first, then UCI (from_uci plus
a legality check) when the token looks like a coordinate move, else the
whole call fails with the offending token (the InvalidVariation error). -/
def apply_san_go {B M : Type} (ops : SanOps B M) :
    B → List String → List M → Except String (List M)
  | _, [], acc => .ok acc.reverse
  | b, t :: ts, acc =>
    match ops.parseSan b t with
    | some mv => apply_san_go ops (ops.push b mv) ts (mv :: acc)
    | none =>
      if ops.uciShape t then
        match ops.parseUci t with
        | some mv =>
          if ops.legal b mv then apply_san_go ops (ops.push b mv) ts (mv :: acc)
          else .error t
        | none => .error t
      else .error t

/-- apply_san_sequence: works on a copy of the given board (`b =
board.copy()`), so the caller's board comes back unchanged whatever
happens. -/
def apply_san_sequence {B M : Type} (ops : SanOps B M) (board : B)
    (tokens : List String) : Except String (List M) × B :=
  (apply_san_go ops board tokens [], board)

/-- what_if_san's application phase: copies the session board, applies the
parsed sequence to the copy, and on any failure returns the error dict
leaving the session board untouched. -/
def what_if_apply {B M : Type} (ops : SanOps B M) (stateBoard : B)
    (tokens : List String) : Except String B × B :=
  match (apply_san_sequence ops stateBoard tokens).1 with
  | .ok moves => (.ok (moves.foldl ops.push stateBoard), stateBoard)
  | .error e => (.error e, stateBoard)

/-- Specification-side reading of one token: a move it denotes at board `b`,
or none when it is unparseable or illegal. -/
def token_step {B M : Type} (ops : SanOps B M) (b : B) (t : String) : Option M :=
  match ops.parseSan b t with
  | some mv => some mv
  | none =>
    if ops.uciShape t then
      match ops.parseUci t with
      | some mv => if ops.legal b mv then some mv else none
      | none => none
    else none

/-- Specification-side sequential application: all tokens denote moves in
turn, or the whole sequence fails at the first bad token. -/
def seq_parse {B M : Type} (ops : SanOps B M) : B → List String → Except String (List M)
  | _, [] => .ok []
  | b, t :: ts =>
    match token_step ops b t with
    | some mv =>
      match seq_parse ops (ops.push b mv) ts with
      | .ok ms => .ok (mv :: ms)
      | .error e => .error e
    | none => .error t

theorem apply_san_go_spec {B M : Type} (ops : SanOps B M) (ts : List String) :
    ∀ (b : B) (acc : List M),
      apply_san_go ops b ts acc =
        match seq_parse ops b ts with
        | .ok ms => .ok (acc.reverse ++ ms)
        | .error e => .error e := by
  induction ts with
  | nil => intro b acc; simp [apply_san_go, seq_parse]
  | cons t ts ih =>
    intro b acc
    simp only [apply_san_go, seq_parse, token_step]
    cases hps : ops.parseSan b t with
    | some mv =>
      dsimp only
      rw [ih]
      cases hseq : seq_parse ops (ops.push b mv) ts <;> simp
    | none =>
      by_cases hu : ops.uciShape t
      · simp only [hu, if_true]
        cases hpu : ops.parseUci t with
        | some mv =>
          by_cases hl : ops.legal b mv
          · simp only [hl, if_true]
            try dsimp only
            rw [ih]
            cases hseq : seq_parse ops (ops.push b mv) ts <;> simp
          · simp [hl]
        | none => simp
      · simp [hu]

/-- Claim C7: a hypothetical move sequence is applied only to a copy — the
original board always comes back unchanged from both apply_san_sequence and
what_if_san — and the result is all-or-nothing: the full move list exactly
when every token parses and applies in turn, and the InvalidVariation error
carrying the first bad token otherwise, with no prefix returned. -/
theorem claim_C7_invalid_variation {B M : Type} (ops : SanOps B M) (board : B)
    (tokens : List String) :
    (apply_san_sequence ops board tokens).2 = board ∧
    (what_if_apply ops board tokens).2 = board ∧
    (apply_san_sequence ops board tokens).1 = seq_parse ops board tokens ∧
    (what_if_apply ops board tokens).1 =
      (match seq_parse ops board tokens with
        | .ok ms => .ok (ms.foldl ops.push board)
        | .error e => .error e) := by
  have happ : (apply_san_sequence ops board tokens).1 = seq_parse ops board tokens := by
    show apply_san_go ops board tokens [] = _
    rw [apply_san_go_spec]
    cases seq_parse ops board tokens <;> simp
  have h2 : (what_if_apply ops board tokens).2 = board := by
    cases hx : (apply_san_sequence ops board tokens).1 <;>
      simp [what_if_apply, hx]
  refine ⟨rfl, h2, happ, ?_⟩
  cases hx : (apply_san_sequence ops board tokens).1 with
  | ok ms =>
    have hs : seq_parse ops board tokens = .ok ms := by rw [← happ, hx]
    simp [what_if_apply, hx, hs]
  | error e =>
    have hs : seq_parse ops board tokens = .error e := by rw [← happ, hx]
    simp [what_if_apply, hx, hs]

/- ===== coach_session.CoachSession.goto_ply ===== -/

/-- The navigation slice of CoachState: the loaded game's root board, the
mainline moves, and the session cursor (current board and ply index). -/
structure NavState (B M : Type) where
  hasGame : Bool
  root : B
  mainline : List M
  board : B
  plyIdx : Nat

/-- Replaying a move list from a board (the `for i in range(ply): b.push(...)`
loop over a fresh `game.board()`). -/
def replay {B M : Type} (push : B → M → B) (root : B) (moves : List M) : B :=
  moves.foldl push root

/-- goto_ply: with no game it returns the error dict and leaves the state
alone; otherwise it clamps the requested ply to [0, mainline length],
replays that prefix from the root and updates board and cursor. -/
def goto_ply {B M : Type} (push : B → M → B) (st : NavState B M) (n : Int) :
    NavState B M :=
  if st.hasGame = false then st
  else
    let p : Nat := (max 0 (min n (st.mainline.length : Int))).toNat
    { st with board := replay push st.root (st.mainline.take p), plyIdx := p }

/-- Claim C8: goto_ply clamps the requested ply to [0, mainline length] and
re-establishes the cursor invariant — the cursor board equals the root
advanced by exactly the mainline prefix up to the cursor's ply index — while
leaving root and mainline untouched. -/
theorem claim_C8_goto_ply {B M : Type} (push : B → M → B) (st : NavState B M)
    (n : Int) (h : st.hasGame = true) :
    (goto_ply push st n).plyIdx = (max 0 (min n (st.mainline.length : Int))).toNat ∧
    (goto_ply push st n).board =
      replay push (goto_ply push st n).root
        ((goto_ply push st n).mainline.take ((goto_ply push st n).plyIdx)) ∧
    (goto_ply push st n).plyIdx ≤ st.mainline.length ∧
    (goto_ply push st n).root = st.root ∧
    (goto_ply push st n).mainline = st.mainline := by
  have hg : ¬ st.hasGame = false := by simp [h]
  refine ⟨?_, ?_, ?_, ?_, ?_⟩ <;> simp [goto_ply, hg]

/-- Witness for C8: a three-move game with cursor request past the end. -/
theorem claim_C8_witness :
    (NavState.hasGame ⟨true, (0 : Int), [1, 2, 3], 0, 0⟩ = true) ∧
    ((goto_ply (fun b (m : Int) => b + m) ⟨true, 0, [1, 2, 3], 0, 0⟩ 5).plyIdx =
        (max 0 (min 5 ((3 : Nat) : Int))).toNat ∧
      (goto_ply (fun b (m : Int) => b + m) ⟨true, 0, [1, 2, 3], 0, 0⟩ 5).board =
        replay (fun b (m : Int) => b + m)
          (goto_ply (fun b (m : Int) => b + m) ⟨true, 0, [1, 2, 3], 0, 0⟩ 5).root
          ((goto_ply (fun b (m : Int) => b + m) ⟨true, 0, [1, 2, 3], 0, 0⟩ 5).mainline.take
            ((goto_ply (fun b (m : Int) => b + m) ⟨true, 0, [1, 2, 3], 0, 0⟩ 5).plyIdx)) ∧
      (goto_ply (fun b (m : Int) => b + m) ⟨true, 0, [1, 2, 3], 0, 0⟩ 5).plyIdx ≤ 3 ∧
      (goto_ply (fun b (m : Int) => b + m) ⟨true, 0, [1, 2, 3], 0, 0⟩ 5).root = 0 ∧
      (goto_ply (fun b (m : Int) => b + m) ⟨true, 0, [1, 2, 3], 0, 0⟩ 5).mainline
        = [1, 2, 3]) :=
  ⟨rfl, claim_C8_goto_ply (fun b (m : Int) => b + m) ⟨true, 0, [1, 2, 3], 0, 0⟩ 5 rfl⟩

/- ===== coach_session.CoachSession.what_if_san: iterative deepening ===== -/

/-- The deepening loop: analyse at each listed depth, record the progress
pair (depth, that depth's results), and keep the last results. -/
def deepen_go (analyse : Nat → List AnItem) :
    List Nat → List AnItem → List (Nat × List AnItem) × List AnItem
  | [], last => ([], last)
  | d :: ds, _ =>
    let res := analyse d
    let rest := deepen_go analyse ds res
    ((d, res) :: rest.1, rest.2)

/-- what_if_san's engine phase: `start_depth = 10 if depth >= 10 else depth`,
then one analyse call per depth from start_depth to depth inclusive; the
trace holds one progress notification per call; the second component is the
final `last_results`. -/
def what_if_deepen (analyse : Nat → List AnItem) (depth : Nat) :
    List (Nat × List AnItem) × List AnItem :=
  let start := if 10 ≤ depth then 10 else depth
  deepen_go analyse (List.range' start (depth + 1 - start)) []

theorem deepen_go_trace (analyse : Nat → List AnItem) (ds : List Nat) :
    ∀ (init : List AnItem),
      deepen_go analyse ds init =
        (ds.map (fun d => (d, analyse d)), (ds.map analyse).getLastD init) := by
  induction ds with
  | nil => intro init; simp [deepen_go]
  | cons d ds ih =>
    intro init
    simp only [deepen_go, ih, List.map_cons]
    rw [List.getLastD_cons]

theorem range'_map_getLastD (f : Nat → List AnItem) :
    ∀ (n start : Nat) (init : List AnItem), n ≠ 0 →
      (((List.range' start n).map f).getLastD init) = f (start + n - 1) := by
  intro n
  induction n with
  | zero => intro start init h; omega
  | succ m ih =>
    intro start init h
    by_cases hm : m = 0
    · subst hm; simp [List.range']
    · rw [List.range'_succ]
      simp only [List.map_cons, List.getLastD_cons]
      rw [ih (start + 1) (f start) hm]
      congr 1
      omega

/-- Claim C9: the deep what-if analysis calls the engine exactly once per
depth from min(10, targetDepth) up to targetDepth inclusive, in order,
emitting one progress pair (depth, that depth's lines) per step, and
returns exactly the final depth's lines. -/
theorem claim_C9_iterative_deepening (analyse : Nat → List AnItem) (depth : Nat) :
    (what_if_deepen analyse depth).1 =
      (List.range' (min 10 depth) (depth + 1 - min 10 depth)).map
        (fun d => (d, analyse d)) ∧
    (what_if_deepen analyse depth).2 = analyse depth := by
  have hstart : (if 10 ≤ depth then 10 else depth) = min 10 depth := by
    split <;> omega
  constructor
  · simp [what_if_deepen, hstart, deepen_go_trace]
  · simp only [what_if_deepen, hstart, deepen_go_trace]
    rw [range'_map_getLastD analyse (depth + 1 - min 10 depth) (min 10 depth) []
      (by omega)]
    congr 1
    omega
